import Mathlib

/-!
Verification development for the two calendar tools of the
agency-voice-interface repository
(src/voice_assistant/tools/CreateCalendarEvent.py and
src/voice_assistant/tools/CancelCalendarEvent.py).

The Python code is shallowly embedded as follows.

* A Google OAuth credential is modelled by its observable attributes
  (valid, expired, presence of a refresh token, plus an identity tag).
* Each external step (pickle.load of the token file, creds.refresh,
  the interactive flow run_local_server) is modelled by an oracle in an
  AuthWorld that, per retry attempt, yields either a value, a
  TimeoutError, or a generic exception.
* authenticate_calendar of both tools (the bodies are identical) is the
  fueled loop authLoop; it returns an AuthResult together with a trace
  of AuthEvent effects (log lines, sleeps, refresh calls, interactive
  flow runs, token-file writes), so frame claims about what was or was
  not written can be stated.
* Python datetimes are pairs (ordinal day, minute of day); strptime of
  a structured date and HH:MM time builds one, and timedelta addition
  is addMinutes with the floor-division normalisation Python uses.
* run of each tool is a pure function from a world (auth world plus the
  outcomes of the insert / list / delete calls) and the tool fields to
  the returned message string and the trace of attempted remote calls.
-/

namespace CalendarTools

/-- Observable state of a google.oauth2 Credentials object: the `valid`
and `expired` flags, whether a refresh token is present (truthiness of
creds.refresh_token), and an identity tag distinguishing tokens. -/
structure Credential where
  valid : Bool
  expired : Bool
  refresh_token : Bool
  tag : Nat
deriving DecidableEq, Repr

/-- Outcome of one external call: a result, a TimeoutError, or some
other exception carrying its message string. -/
inductive StepResult (α : Type) where
  | ok : α → StepResult α
  | timeout : StepResult α
  | exn : String → StepResult α
deriving DecidableEq, Repr

/-- True exactly on a successful outcome. -/
def StepResult.isOk {α : Type} : StepResult α → Bool
  | .ok _ => true
  | _ => false

/-- Environment of authenticate_calendar. The oracles are indexed by
the attempt number, so repeated attempts may observe different
outcomes of the external calls (lines 116-170 of
CreateCalendarEvent.py, 91-145 of CancelCalendarEvent.py). -/
structure AuthWorld where
  tokenExists : Bool
  loadResult : Nat → StepResult Credential
  credentialsFileExists : Bool
  refreshResult : Nat → StepResult Credential
  flowResult : Nat → StepResult Credential

/-- Effects performed by authenticate_calendar, in order:
the attempt log line, the asyncio.sleep(0.5) calls, the pickle.load of
the token file, the creds.refresh call with its outcome, the
interactive flow with its outcome, the pickle.dump to the token file,
and the asyncio.sleep(RETRY_DELAY) between attempts. -/
inductive AuthEvent where
  | attemptLog : Nat → AuthEvent
  | sleep : ℚ → AuthEvent
  | loadToken : AuthEvent
  | refreshCall : StepResult Credential → AuthEvent
  | interactiveFlow : StepResult Credential → AuthEvent
  | writeToken : Credential → AuthEvent
  | retrySleep : ℚ → AuthEvent
deriving DecidableEq, Repr

/-- How one iteration of the retry loop ends: a `return creds, err`
(lines 136, 156, 163, 170), or an exception reaching one of the two
except clauses. -/
inductive AttemptResult where
  | done : Option Credential → Option String → AttemptResult
  | timeoutRaised : AttemptResult
  | exnRaised : String → AttemptResult
deriving DecidableEq, Repr

/-- Result of authenticate_calendar as seen by the caller. `noneReturn`
is the bare None Python returns when the for-loop runs zero iterations
(MAX_RETRIES = 0), which is not a (creds, error) pair. -/
inductive AuthResult where
  | result : Option Credential → Option String → AuthResult
  | noneReturn : AuthResult
deriving DecidableEq, Repr

/-- The 0.5 seconds of the asyncio.sleep(0.5) calls. -/
def halfSecond : ℚ := 1 / 2

/-- Lines 134-154: no usable credential was loaded, so run the
interactive flow: missing credentials.json aborts with an error pair;
otherwise sleep, run the flow (its timeout / exception propagates to
the except clauses), and on success write the token file and return
the new credential. -/
def authNewFlow (w : AuthWorld) (i : Nat) (pre : List AuthEvent) :
    AttemptResult × List AuthEvent :=
  if w.credentialsFileExists then
    match w.flowResult i with
    | .ok c =>
        (.done (some c) none,
          pre ++ [.sleep halfSecond, .interactiveFlow (.ok c), .writeToken c])
    | .timeout => (.timeoutRaised, pre ++ [.sleep halfSecond, .interactiveFlow .timeout])
    | .exn m => (.exnRaised m, pre ++ [.sleep halfSecond, .interactiveFlow (.exn m)])
  else
    (.done none (some "Error: credentials.json file not found."), pre)

/-- One iteration of the try-block (lines 117-156): log the attempt,
sleep, load the token file if present, return the credential if valid,
refresh it if expired with a refresh token, else run the interactive
flow. -/
def authAttempt (w : AuthWorld) (i : Nat) : AttemptResult × List AuthEvent :=
  let pre : List AuthEvent := [.attemptLog i, .sleep halfSecond]
  if w.tokenExists then
    match w.loadResult i with
    | .ok c =>
        let pre2 := pre ++ [.loadToken]
        if c.valid then (.done (some c) none, pre2)
        else if c.expired && c.refresh_token then
          match w.refreshResult i with
          | .ok c2 =>
              (.done (some c2) none, pre2 ++ [.sleep halfSecond, .refreshCall (.ok c2)])
          | .timeout => (.timeoutRaised, pre2 ++ [.sleep halfSecond, .refreshCall .timeout])
          | .exn m => (.exnRaised m, pre2 ++ [.sleep halfSecond, .refreshCall (.exn m)])
        else authNewFlow w i pre2
    | .timeout => (.timeoutRaised, pre ++ [.loadToken])
    | .exn m => (.exnRaised m, pre ++ [.loadToken])
  else authNewFlow w i pre

/-- The retry loop (for attempt in range(MAX_RETRIES)). `fuel` is the
number of iterations still available and `i` the current attempt
index; authenticate_calendar starts it with fuel = maxRetries, i = 0.
An exception on an attempt with `i < maxRetries - 1` sleeps RETRY_DELAY
and continues; on the last attempt it returns the terminal error pair
(lines 158-170). Exhausting the loop without returning is Python's
implicit None. -/
def authLoop (w : AuthWorld) (maxRetries : Nat) (retryDelay : ℚ) :
    Nat → Nat → AuthResult × List AuthEvent
  | 0, _ => (.noneReturn, [])
  | fuel + 1, i =>
    match authAttempt w i with
    | (.done c e, tr) => (.result c e, tr)
    | (.timeoutRaised, tr) =>
        if i < maxRetries - 1 then
          let rest := authLoop w maxRetries retryDelay fuel (i + 1)
          (rest.1, tr ++ AuthEvent.retrySleep retryDelay :: rest.2)
        else
          (.result none (some "Authentication timed out after multiple attempts."), tr)
    | (.exnRaised m, tr) =>
        if i < maxRetries - 1 then
          let rest := authLoop w maxRetries retryDelay fuel (i + 1)
          (rest.1, tr ++ AuthEvent.retrySleep retryDelay :: rest.2)
        else
          (.result none (some ("Authentication failed: " ++ m)), tr)

/-- authenticate_calendar (identical in both tools): run the retry loop
from attempt 0 with MAX_RETRIES iterations available. -/
def authenticate_calendar (w : AuthWorld) (maxRetries : Nat) (retryDelay : ℚ) :
    AuthResult × List AuthEvent :=
  authLoop w maxRetries retryDelay maxRetries 0

/-! ### Python datetimes

A parsed datetime is the pair of its proleptic Gregorian ordinal (as in
datetime.date.toordinal) and its minute of the day. The py-strings
"YYYY-MM-DD" and "HH:MM" are carried in structured form. -/

/-- A calendar date, the parse of a "YYYY-MM-DD" string. -/
structure Date where
  year : Nat
  month : Nat
  day : Nat
deriving DecidableEq, Repr

/-- A wall-clock time, the parse of an "HH:MM" string. -/
structure Time where
  hour : Nat
  minute : Nat
deriving DecidableEq, Repr

/-- Gregorian leap year as in the datetime module. -/
def isLeap (y : Nat) : Bool :=
  (y % 4 == 0 && y % 100 != 0) || y % 400 == 0

/-- Length of a month. -/
def daysInMonth (y m : Nat) : Nat :=
  if m == 2 then (if isLeap y then 29 else 28)
  else if m == 4 || m == 6 || m == 9 || m == 11 then 30
  else 31

/-- Days in the years before year y (datetime's _days_before_year). -/
def daysBeforeYear (y : Nat) : Nat :=
  365 * (y - 1) + (y - 1) / 4 + (y - 1) / 400 - (y - 1) / 100

/-- Days in the months of year y strictly before month m. -/
def daysBeforeMonth (y m : Nat) : Nat :=
  (List.range (m - 1)).foldl (fun acc i => acc + daysInMonth y (i + 1)) 0

/-- datetime.date.toordinal: day 1 is 0001-01-01. -/
def Date.toOrdinal (d : Date) : Nat :=
  daysBeforeYear d.year + daysBeforeMonth d.year d.month + d.day

/-- Validity of a parsed date (what strptime with %Y-%m-%d accepts). -/
def Date.Valid (d : Date) : Prop :=
  1 ≤ d.year ∧ d.year ≤ 9999 ∧ 1 ≤ d.month ∧ d.month ≤ 12 ∧
    1 ≤ d.day ∧ d.day ≤ daysInMonth d.year d.month

/-- Validity of a parsed time (what strptime with %H:%M accepts). -/
def Time.Valid (t : Time) : Prop :=
  t.hour ≤ 23 ∧ t.minute ≤ 59

instance (d : Date) : Decidable d.Valid := by unfold Date.Valid; infer_instance

instance (t : Time) : Decidable t.Valid := by unfold Time.Valid; infer_instance

/-- A datetime.datetime value: its date ordinal and its minute of the
day (seconds and below are always zero in this code). Both components
are integers so that timedelta arithmetic is total, as in Python. -/
structure PyDateTime where
  days : Int
  minuteOfDay : Int
deriving DecidableEq, Repr

/-- datetime.strptime(f"{date} {time}", "%Y-%m-%d %H:%M"). -/
def strptimeDT (d : Date) (t : Time) : PyDateTime :=
  { days := (d.toOrdinal : Int), minuteOfDay := 60 * t.hour + t.minute }

/-- start_time + timedelta(minutes=k): Python normalises with floor
division by the number of minutes in a day. -/
def addMinutes (dt : PyDateTime) (k : Int) : PyDateTime :=
  { days := dt.days + (dt.minuteOfDay + k) / 1440
    minuteOfDay := (dt.minuteOfDay + k) % 1440 }

/-- The absolute timestamp of a datetime, in minutes. -/
def timestampMinutes (dt : PyDateTime) : Int :=
  1440 * dt.days + dt.minuteOfDay

/-- .hour of a datetime. -/
def PyDateTime.hourOf (dt : PyDateTime) : Int :=
  dt.minuteOfDay / 60

/-- .minute of a datetime. -/
def PyDateTime.minuteOf (dt : PyDateTime) : Int :=
  dt.minuteOfDay % 60

/-- Zero-pad a number to two digits, as %m/%d/%H/%M formatting does. -/
def pad2 (n : Nat) : String :=
  if n < 10 then "0" ++ toString n else toString n

/-- The "YYYY-MM-DD" rendering of a date. -/
def formatDate (d : Date) : String :=
  toString d.year ++ "-" ++ pad2 d.month ++ "-" ++ pad2 d.day

/-- The "HH:MM" rendering of a time. -/
def formatTime (t : Time) : String :=
  pad2 t.hour ++ ":" ++ pad2 t.minute

/-- Python str() of an optional string: None prints as "None" when
interpolated into an f-string. -/
def optStr : Option String → String
  | some s => s
  | none => "None"

/-- Python truthiness of an optional string (`if error:`). -/
def truthyStr : Option String → Bool
  | some s => s ≠ ""
  | none => false

/-! ### CreateCalendarEvent -/

/-- The pydantic fields of the CreateCalendarEvent tool. date and time
are kept in parsed, structured form. -/
structure CreateCalendarEvent where
  title : String
  date : Date
  time : Time
  duration_minutes : Int
  description : String
deriving DecidableEq, Repr

/-- Pydantic construction of the tool: Field(gt=0, le=480) on
duration_minutes (lines 63-68) rejects any request whose duration is
outside [1, 480] with a ValidationError before run can execute. -/
def mkCreateCalendarEvent (title : String) (d : Date) (t : Time)
    (dur : Int) (descr : String) : Option CreateCalendarEvent :=
  if 0 < dur ∧ dur ≤ 480 then
    some { title := title, date := d, time := t,
           duration_minutes := dur, description := descr }
  else none

/-- One reminder override ({'method': ..., 'minutes': ...}); minutes
counts backwards from the event start, per the Calendar API. -/
structure Reminder where
  method : String
  minutes : Nat
deriving DecidableEq, Repr

/-- The event body built by run (lines 193-218): start and end
datetimes, reminder settings, attendees and the sendUpdates flag. -/
structure EventRecord where
  summary : String
  description : String
  startDT : PyDateTime
  endDT : PyDateTime
  remindersUseDefault : Bool
  reminderOverrides : List Reminder
  attendees : List String
  sendUpdates : String
deriving DecidableEq, Repr

/-- Lines 193-218 of CreateCalendarEvent.run: parse start, add the
duration, and assemble the event dict that is submitted. -/
def buildEvent (attendeeEmail : String) (tool : CreateCalendarEvent) : EventRecord :=
  let start_time := strptimeDT tool.date tool.time
  let end_time := addMinutes start_time tool.duration_minutes
  { summary := tool.title
    description := tool.description
    startDT := start_time
    endDT := end_time
    remindersUseDefault := false
    reminderOverrides := [{ method := "email", minutes := 30 },
                          { method := "popup", minutes := 15 }]
    attendees := [attendeeEmail]
    sendUpdates := "all" }

/-- A remote call attempted by CreateCalendarEvent.run. -/
inductive RemoteCall where
  | insert : EventRecord → RemoteCall
deriving DecidableEq, Repr

/-- What service.events().insert(...).execute() returns on success:
the fields run reads (result.get of id and htmlLink). -/
structure InsertResponse where
  id : Option String
  htmlLink : Option String
deriving DecidableEq, Repr

/-- Environment of CreateCalendarEvent.run: the authentication world
and configuration, the GOOGLE_CALENDAR_EMAIL env var, and the outcome
of the insert call. -/
structure CreateWorld where
  auth : AuthWorld
  maxRetries : Nat
  retryDelay : ℚ
  googleCalendarEmail : String
  insertResult : StepResult InsertResponse

/-- CreateCalendarEvent.run (lines 172-246) as a function from the
world and the tool fields to the returned message and the trace of
attempted remote calls. The noneReturn case is the TypeError raised by
unpacking None, caught by the outer except (line 244). -/
def runCreate (w : CreateWorld) (tool : CreateCalendarEvent) : String × List RemoteCall :=
  match authenticate_calendar w.auth w.maxRetries w.retryDelay with
  | (.noneReturn, _) =>
      ("Error creating calendar event: cannot unpack non-iterable NoneType object", [])
  | (.result creds err, _) =>
      if truthyStr err then ((optStr err), [])
      else
        match creds with
        | none => ("Failed to authenticate with Google Calendar.", [])
        | some _ =>
          let ev := buildEvent w.googleCalendarEmail tool
          match w.insertResult with
          | .ok resp =>
              ("Meeting \x27" ++ tool.title ++ "\x27 scheduled for " ++
                 formatDate tool.date ++ " at " ++ formatTime tool.time ++
                 " (Duration: " ++ toString tool.duration_minutes ++ " minutes)\n" ++
                 "Calendar link: " ++ optStr resp.htmlLink,
               [.insert ev])
          | .timeout => ("Calendar API request timed out. Please try again.", [.insert ev])
          | .exn m => ("Error creating calendar event: " ++ m, [.insert ev])

/-! ### CancelCalendarEvent -/

/-- The pydantic fields of the CancelCalendarEvent tool; time is
optional (match by title and date only when absent). -/
structure CancelCalendarEvent where
  title : String
  date : Date
  time : Option Time
deriving DecidableEq, Repr

/-- An event item returned by the events().list search: its id and the
datetime parsed from event.start (lines 195-196). -/
structure RemoteEvent where
  id : String
  start : PyDateTime
deriving DecidableEq, Repr

/-- A remote call attempted by CancelCalendarEvent.run: the list
(search) query, or the deletion of one event id. -/
inductive CancelCall where
  | search : String → Date → CancelCall
  | delete : String → CancelCall
deriving DecidableEq, Repr

/-- Environment of CancelCalendarEvent.run: authentication world and
configuration, the outcome of the list call (its items on success),
and the outcome of the delete call for each event id. -/
structure CancelWorld where
  auth : AuthWorld
  maxRetries : Nat
  retryDelay : ℚ
  searchResult : StepResult (List RemoteEvent)
  deleteResult : String → StepResult Unit

/-- The time filter of lines 197-198: the hour and minute of the event
start both equal those of the target datetime. -/
def timeMatches (target : PyDateTime) (e : RemoteEvent) : Bool :=
  e.start.hourOf == target.hourOf && e.start.minuteOf == target.minuteOf

/-- The delete loop of lines 206-218: attempt to delete every matched
event; an exception from one delete is logged and skipped, and
deleted_count counts the successes. Returns the count and the trace of
attempted delete calls, in order. -/
def deleteEvents (w : CancelWorld) : List RemoteEvent → Nat × List CancelCall
  | [] => (0, [])
  | e :: rest =>
      let r := deleteEvents w rest
      match w.deleteResult e.id with
      | .ok _ => (r.1 + 1, .delete e.id :: r.2)
      | _ => (r.1, .delete e.id :: r.2)

/-- The final message of lines 220-225, keyed on deleted_count. -/
def cancelCountMessage (title : String) (d : Date) (k : Nat) : String :=
  if k == 1 then
    "Successfully cancelled the meeting \x27" ++ title ++ "\x27 on " ++ formatDate d
  else if k > 1 then
    "Successfully cancelled " ++ toString k ++ " occurrences of \x27" ++ title ++
      "\x27 on " ++ formatDate d
  else "Failed to cancel any events"

/-- CancelCalendarEvent.run (lines 147-237) as a function from the
world and the tool fields to the returned message and the trace of
attempted remote calls: authenticate, search by title over the day
window, optionally filter by exact hour and minute, then delete each
match, skipping per-event failures. -/
def runCancel (w : CancelWorld) (tool : CancelCalendarEvent) : String × List CancelCall :=
  match authenticate_calendar w.auth w.maxRetries w.retryDelay with
  | (.noneReturn, _) =>
      ("Error cancelling calendar event: cannot unpack non-iterable NoneType object", [])
  | (.result creds err, _) =>
      if truthyStr err then ((optStr err), [])
      else
        match creds with
        | none => ("Failed to authenticate with Google Calendar.", [])
        | some _ =>
          match w.searchResult with
          | .timeout =>
              ("Calendar API request timed out. Please try again.",
               [.search tool.title tool.date])
          | .exn m =>
              ("Error cancelling calendar event: " ++ m, [.search tool.title tool.date])
          | .ok events =>
            let base := [CancelCall.search tool.title tool.date]
            if events.isEmpty then
              ("No events found matching \x27" ++ tool.title ++ "\x27 on " ++
                 formatDate tool.date, base)
            else
              let events1 :=
                match tool.time with
                | some t => events.filter (timeMatches (strptimeDT tool.date t))
                | none => events
              if events1.isEmpty then
                ("No events found matching \x27" ++ tool.title ++ "\x27 at " ++
                   (match tool.time with | some t => formatTime t | none => "None") ++
                   " on " ++ formatDate tool.date, base)
              else
                let r := deleteEvents w events1
                (cancelCountMessage tool.title tool.date r.1, base ++ r.2)

/-! ### Basic lemmas -/

/-- Python timedelta addition, on the (ordinal, minute-of-day) pair,
shifts the absolute timestamp by exactly the added minutes. -/
theorem timestampMinutes_addMinutes (dt : PyDateTime) (k : Int) :
    timestampMinutes (addMinutes dt k) = timestampMinutes dt + k := by
  unfold timestampMinutes addMinutes
  simp only
  omega

/-- Claim C1: for every valid EventRequest the end timestamp computed
by CreateCalendarEvent.run is the start timestamp plus the duration in
minutes, and a duration outside [1, 480] is rejected by the pydantic
field validation (gt=0, le=480), so run, and with it any remote call,
is never reached for such a request. -/
theorem create_end_eq_start_plus_duration (title descr : String) (d : Date) (t : Time)
    (dur : Int) (em : String) (_hd : d.Valid) (_ht : t.Valid) :
    (0 < dur ∧ dur ≤ 480 →
       ∃ tool, mkCreateCalendarEvent title d t dur descr = some tool ∧
         timestampMinutes (buildEvent em tool).endDT
           = timestampMinutes (buildEvent em tool).startDT + dur) ∧
    (dur < 1 ∨ 480 < dur → mkCreateCalendarEvent title d t dur descr = none) := by
  constructor
  · intro hrange
    refine ⟨{ title := title, date := d, time := t,
              duration_minutes := dur, description := descr }, ?_, ?_⟩
    · unfold mkCreateCalendarEvent
      rw [if_pos hrange]
    · show timestampMinutes (addMinutes (strptimeDT d t) dur)
        = timestampMinutes (strptimeDT d t) + dur
      exact timestampMinutes_addMinutes _ _
  · intro hout
    unfold mkCreateCalendarEvent
    rw [if_neg]
    omega

/-- Witness for C1 at a concrete request: a 45-minute meeting at 14:30
on 2024-02-29 ends 45 minutes after it starts, and a 481-minute and a
0-minute request are both rejected at validation. -/
theorem create_end_eq_start_plus_duration_witness :
    (∃ tool, mkCreateCalendarEvent "Test Meeting" ⟨2024, 2, 29⟩ ⟨14, 30⟩ 45 "demo"
        = some tool ∧
      timestampMinutes (buildEvent "a@b.c" tool).endDT
        = timestampMinutes (buildEvent "a@b.c" tool).startDT + 45) ∧
    mkCreateCalendarEvent "Test Meeting" ⟨2024, 2, 29⟩ ⟨14, 30⟩ 481 "demo" = none ∧
    mkCreateCalendarEvent "Test Meeting" ⟨2024, 2, 29⟩ ⟨14, 30⟩ 0 "demo" = none := by
  refine ⟨?_, ?_, ?_⟩
  · exact (create_end_eq_start_plus_duration "Test Meeting" "demo" ⟨2024, 2, 29⟩ ⟨14, 30⟩
      45 "a@b.c" (by decide) (by decide)).1 (by decide)
  · exact (create_end_eq_start_plus_duration "Test Meeting" "demo" ⟨2024, 2, 29⟩ ⟨14, 30⟩
      481 "a@b.c" (by decide) (by decide)).2 (by decide)
  · exact (create_end_eq_start_plus_duration "Test Meeting" "demo" ⟨2024, 2, 29⟩ ⟨14, 30⟩
      0 "a@b.c" (by decide) (by decide)).2 (by decide)

/-! ### Concrete credentials and worlds used by witnesses -/

/-- A stored credential that is still valid. -/
def validCred : Credential :=
  { valid := true, expired := false, refresh_token := true, tag := 1 }

/-- A stored credential that has expired but carries a refresh token. -/
def expiredCred : Credential :=
  { valid := false, expired := true, refresh_token := true, tag := 2 }

/-- The credential obtained by refreshing expiredCred. -/
def refreshedCred : Credential :=
  { valid := true, expired := false, refresh_token := true, tag := 3 }

/-- A world whose token file holds a valid credential. -/
def storedTokenWorld : AuthWorld :=
  { tokenExists := true
    loadResult := fun _ => .ok validCred
    credentialsFileExists := true
    refreshResult := fun _ => .exn "refresh not reached"
    flowResult := fun _ => .exn "flow not reached" }

/-- A world whose token file holds an expired credential with a
refresh token, and whose refresh call succeeds. -/
def expiredTokenWorld : AuthWorld :=
  { tokenExists := true
    loadResult := fun _ => .ok expiredCred
    credentialsFileExists := true
    refreshResult := fun _ => .ok refreshedCred
    flowResult := fun _ => .exn "flow not reached" }

/-- A world with no token file in which every interactive flow attempt
times out. -/
def timeoutWorld : AuthWorld :=
  { tokenExists := false
    loadResult := fun _ => .exn "load not reached"
    credentialsFileExists := true
    refreshResult := fun _ => .exn "refresh not reached"
    flowResult := fun _ => .timeout }

/-- A world with no token file in which the interactive flow succeeds,
yielding refreshedCred. -/
def freshFlowWorld : AuthWorld :=
  { tokenExists := false
    loadResult := fun _ => .exn "load not reached"
    credentialsFileExists := true
    refreshResult := fun _ => .exn "refresh not reached"
    flowResult := fun _ => .ok refreshedCred }

/-! ### Claims about authenticate_calendar -/

/-- Claim C6: if the token file exists and the credential loaded from
it is valid, authenticate_calendar returns that credential (with no
error) and the interactive authorization flow is never run. -/
theorem auth_valid_token_skips_flow (w : AuthWorld) (R : Nat) (δ : ℚ) (c : Credential)
    (hR : 1 ≤ R) (htok : w.tokenExists = true) (hload : w.loadResult 0 = .ok c)
    (hvalid : c.valid = true) :
    (authenticate_calendar w R δ).1 = .result (some c) none ∧
    ∀ o, AuthEvent.interactiveFlow o ∉ (authenticate_calendar w R δ).2 := by
  obtain ⟨r, rfl⟩ : ∃ r, R = r + 1 := ⟨R - 1, by omega⟩
  constructor
  · simp [authenticate_calendar, authLoop, authAttempt, htok, hload, hvalid]
  · intro o h
    simp [authenticate_calendar, authLoop, authAttempt, htok, hload, hvalid] at h

/-- Witness for C6: in storedTokenWorld with the default configuration
(3 retries, 1 second delay) the stored valid credential is returned
and no interactive flow is run. -/
theorem auth_valid_token_skips_flow_witness :
    (authenticate_calendar storedTokenWorld 3 1).1 = .result (some validCred) none ∧
    ∀ o, AuthEvent.interactiveFlow o ∉ (authenticate_calendar storedTokenWorld 3 1).2 :=
  auth_valid_token_skips_flow storedTokenWorld 3 1 validCred (by decide) rfl rfl rfl

/-- Claim C10: if the token file exists and the credential loaded from
it is valid, authenticate_calendar returns that credential with no
error and never writes the token file, leaving the persisted
credential unchanged. -/
theorem auth_valid_token_no_write (w : AuthWorld) (R : Nat) (δ : ℚ) (c : Credential)
    (hR : 1 ≤ R) (htok : w.tokenExists = true) (hload : w.loadResult 0 = .ok c)
    (hvalid : c.valid = true) :
    (authenticate_calendar w R δ).1 = .result (some c) none ∧
    ∀ c2, AuthEvent.writeToken c2 ∉ (authenticate_calendar w R δ).2 := by
  obtain ⟨r, rfl⟩ : ∃ r, R = r + 1 := ⟨R - 1, by omega⟩
  constructor
  · simp [authenticate_calendar, authLoop, authAttempt, htok, hload, hvalid]
  · intro c2 h
    simp [authenticate_calendar, authLoop, authAttempt, htok, hload, hvalid] at h

/-- Witness for C10 in storedTokenWorld: the credential comes back and
no token-file write appears in the trace. -/
theorem auth_valid_token_no_write_witness :
    (authenticate_calendar storedTokenWorld 3 1).1 = .result (some validCred) none ∧
    ∀ c2, AuthEvent.writeToken c2 ∉ (authenticate_calendar storedTokenWorld 3 1).2 :=
  auth_valid_token_no_write storedTokenWorld 3 1 validCred (by decide) rfl rfl rfl

/-- Claim C7: if the loaded credential is expired but has a refresh
token, authenticate_calendar refreshes it (here refresh succeeds at
attempt 0 yielding c2) and never runs the interactive flow. -/
theorem auth_expired_refreshes_not_flow (w : AuthWorld) (R : Nat) (δ : ℚ)
    (c c2 : Credential) (hR : 1 ≤ R) (htok : w.tokenExists = true)
    (hload : w.loadResult 0 = .ok c) (hnv : c.valid = false) (hexp : c.expired = true)
    (hrt : c.refresh_token = true) (href : w.refreshResult 0 = .ok c2) :
    (authenticate_calendar w R δ).1 = .result (some c2) none ∧
    AuthEvent.refreshCall (.ok c2) ∈ (authenticate_calendar w R δ).2 ∧
    ∀ o, AuthEvent.interactiveFlow o ∉ (authenticate_calendar w R δ).2 := by
  obtain ⟨r, rfl⟩ : ∃ r, R = r + 1 := ⟨R - 1, by omega⟩
  refine ⟨?_, ?_, ?_⟩
  · simp [authenticate_calendar, authLoop, authAttempt, htok, hload, hnv, hexp, hrt, href]
  · simp [authenticate_calendar, authLoop, authAttempt, htok, hload, hnv, hexp, hrt, href]
  · intro o h
    simp [authenticate_calendar, authLoop, authAttempt, htok, hload, hnv, hexp, hrt,
      href] at h

/-- Witness for C7 in expiredTokenWorld: the refreshed credential is
returned, a refresh call is in the trace, and no interactive flow
is. -/
theorem auth_expired_refreshes_not_flow_witness :
    (authenticate_calendar expiredTokenWorld 3 1).1 = .result (some refreshedCred) none ∧
    AuthEvent.refreshCall (.ok refreshedCred) ∈
      (authenticate_calendar expiredTokenWorld 3 1).2 ∧
    ∀ o, AuthEvent.interactiveFlow o ∉ (authenticate_calendar expiredTokenWorld 3 1).2 :=
  auth_expired_refreshes_not_flow expiredTokenWorld 3 1 expiredCred refreshedCred
    (by decide) rfl rfl rfl rfl rfl rfl

/-- The events emitted by authNewFlow contain a token-file write for c
exactly when they contain a successful interactive flow yielding c,
provided the prefix trace contains neither. -/
theorem authNewFlow_write_iff (w : AuthWorld) (i : Nat) (c : Credential)
    (pre : List AuthEvent) (h1 : AuthEvent.writeToken c ∉ pre)
    (h2 : AuthEvent.interactiveFlow (.ok c) ∉ pre) :
    (AuthEvent.writeToken c ∈ (authNewFlow w i pre).2 ↔
      AuthEvent.interactiveFlow (.ok c) ∈ (authNewFlow w i pre).2) := by
  unfold authNewFlow
  cases hcf : w.credentialsFileExists
  · simp [h1, h2]
  · cases hfl : w.flowResult i <;> simp [h1, h2]

/-- One attempt writes the token file for c exactly when its
interactive flow ran and succeeded with c. -/
theorem authAttempt_write_iff (w : AuthWorld) (i : Nat) (c : Credential) :
    AuthEvent.writeToken c ∈ (authAttempt w i).2 ↔
      AuthEvent.interactiveFlow (.ok c) ∈ (authAttempt w i).2 := by
  unfold authAttempt
  cases htok : w.tokenExists
  · exact authNewFlow_write_iff w i c _ (by simp) (by simp)
  · cases hld : w.loadResult i with
    | ok cl =>
      cases hv : cl.valid
      · cases he : cl.expired && cl.refresh_token
        · simpa [hv, he] using authNewFlow_write_iff w i c
            [AuthEvent.attemptLog i, AuthEvent.sleep halfSecond, AuthEvent.loadToken]
            (by simp) (by simp)
        · cases hrf : w.refreshResult i <;> simp [hv, he, hrf]
      · simp [hv]
    | timeout => simp
    | exn m => simp

/-- The whole retry loop writes the token file for c exactly when some
attempt's interactive flow succeeded with c. -/
theorem authLoop_write_iff (w : AuthWorld) (R : Nat) (δ : ℚ) (c : Credential) :
    ∀ fuel i, AuthEvent.writeToken c ∈ (authLoop w R δ fuel i).2 ↔
      AuthEvent.interactiveFlow (.ok c) ∈ (authLoop w R δ fuel i).2 := by
  intro fuel
  induction fuel with
  | zero => intro i; simp [authLoop]
  | succ f ih =>
    intro i
    have hatt := authAttempt_write_iff w i c
    rcases h : authAttempt w i with ⟨res, tr⟩
    rw [h] at hatt
    cases res with
    | done cr er => simpa [authLoop, h] using hatt
    | timeoutRaised =>
      by_cases hi : i < R - 1
      · simp only [authLoop, h, hi, if_pos, List.mem_append, List.mem_cons]
        simp only [hatt, ih (i + 1)]
        simp
      · simpa [authLoop, h, hi] using hatt
    | exnRaised m =>
      by_cases hi : i < R - 1
      · simp only [authLoop, h, hi, if_pos, List.mem_append, List.mem_cons]
        simp only [hatt, ih (i + 1)]
        simp
      · simpa [authLoop, h, hi] using hatt

/-- Counterexample to claim C2: in expiredTokenWorld the function
terminates successfully with the refreshed credential, yet no
token-file write occurs: a credential obtained by refreshing is not
persisted (the pickle.dump of lines 153-154 sits only in the
interactive-flow branch). -/
theorem auth_refresh_not_persisted :
    (authenticate_calendar expiredTokenWorld 3 1).1
      = .result (some refreshedCred) none ∧
    ∀ c, AuthEvent.writeToken c ∉ (authenticate_calendar expiredTokenWorld 3 1).2 := by
  constructor
  · rfl
  · intro c h
    simp [authenticate_calendar, authLoop, authAttempt, expiredTokenWorld,
      expiredCred] at h

/-- Claim C2 as amended: authenticate_calendar persists a credential
to the token file exactly when that credential was freshly obtained
from a successful interactive authorization flow; in particular a
credential obtained by refreshing an expired stored credential is
never persisted. -/
theorem auth_write_iff_flow_success (w : AuthWorld) (R : Nat) (δ : ℚ) (c : Credential) :
    AuthEvent.writeToken c ∈ (authenticate_calendar w R δ).2 ↔
      AuthEvent.interactiveFlow (.ok c) ∈ (authenticate_calendar w R δ).2 :=
  authLoop_write_iff w R δ c R 0

/-- Recogniser for the attempt log line, one per loop iteration. -/
def AuthEvent.isAttemptLog : AuthEvent → Bool
  | .attemptLog _ => true
  | _ => false

/-- Recogniser for an asyncio.sleep(RETRY_DELAY) between attempts with
the given delay. -/
def AuthEvent.isRetrySleep (δ : ℚ) : AuthEvent → Bool
  | .retrySleep d => d == δ
  | _ => false

/-- In a world with no token file where every interactive flow times
out, one attempt raises TimeoutError after logging, sleeping twice and
running the flow. -/
theorem authAttempt_timeout (w : AuthWorld) (i : Nat)
    (htok : w.tokenExists = false) (hcf : w.credentialsFileExists = true)
    (hfl : w.flowResult i = .timeout) :
    authAttempt w i = (.timeoutRaised,
      [.attemptLog i, .sleep halfSecond, .sleep halfSecond,
        .interactiveFlow .timeout]) := by
  simp [authAttempt, authNewFlow, htok, hcf, hfl]

/-- The one-step unfolding of the retry loop at positive fuel. -/
theorem authLoop_succ_eq (w : AuthWorld) (R : Nat) (δ : ℚ) (fuel i : Nat) :
    authLoop w R δ (fuel + 1) i =
      match authAttempt w i with
      | (.done c e, tr) => (.result c e, tr)
      | (.timeoutRaised, tr) =>
          if i < R - 1 then
            let rest := authLoop w R δ fuel (i + 1)
            (rest.1, tr ++ AuthEvent.retrySleep δ :: rest.2)
          else
            (.result none (some "Authentication timed out after multiple attempts."), tr)
      | (.exnRaised m, tr) =>
          if i < R - 1 then
            let rest := authLoop w R δ fuel (i + 1)
            (rest.1, tr ++ AuthEvent.retrySleep δ :: rest.2)
          else
            (.result none (some ("Authentication failed: " ++ m)), tr) := rfl

/-- The retry loop under perpetual timeouts: starting at attempt i with
fuel iterations left (fuel + i = maxRetries), it ends in the terminal
timeout message having logged fuel attempts and slept the retry delay
fuel - 1 times. -/
theorem authLoop_timeout_count (w : AuthWorld) (R : Nat) (δ : ℚ)
    (htok : w.tokenExists = false) (hcf : w.credentialsFileExists = true)
    (hfl : ∀ i, w.flowResult i = .timeout) :
    ∀ fuel i, 1 ≤ fuel → fuel + i = R →
      (authLoop w R δ fuel i).1
        = .result none (some "Authentication timed out after multiple attempts.") ∧
      (authLoop w R δ fuel i).2.countP AuthEvent.isAttemptLog = fuel ∧
      (authLoop w R δ fuel i).2.countP (AuthEvent.isRetrySleep δ) = fuel - 1 := by
  intro fuel
  induction fuel with
  | zero => intro i h1 _; omega
  | succ f ih =>
    intro i _ h2
    cases f with
    | zero =>
      have hi : ¬ i < R - 1 := by omega
      simp [authLoop, authAttempt_timeout w i htok hcf (hfl i), hi,
        AuthEvent.isAttemptLog, AuthEvent.isRetrySleep]
    | succ g =>
      have hi : i < R - 1 := by omega
      obtain ⟨ihr, ihc1, ihc2⟩ := ih (i + 1) (by omega) (by omega)
      have key : authLoop w R δ (g + 1 + 1) i
          = ((authLoop w R δ (g + 1) (i + 1)).1,
             [AuthEvent.attemptLog i, .sleep halfSecond, .sleep halfSecond,
               .interactiveFlow .timeout]
               ++ AuthEvent.retrySleep δ :: (authLoop w R δ (g + 1) (i + 1)).2) := by
        rw [authLoop_succ_eq, authAttempt_timeout w i htok hcf (hfl i)]
        simp [hi]
      rw [key]
      refine ⟨ihr, ?_, ?_⟩
      · simp only [List.countP_append, List.countP_cons, List.countP_nil, ihc1]
        simp [AuthEvent.isAttemptLog, AuthEvent.isRetrySleep]
        all_goals omega
      · simp only [List.countP_append, List.countP_cons, List.countP_nil, ihc2]
        simp [AuthEvent.isAttemptLog, AuthEvent.isRetrySleep]

/-- Claim C4: if every authentication attempt fails with a timeout,
authenticate_calendar performs exactly the configured number of
attempts, sleeps the fixed retry delay between consecutive attempts
(so maxRetries - 1 times), and returns no credential with the terminal
timeout message. -/
theorem auth_timeout_exhausts_retries (w : AuthWorld) (R : Nat) (δ : ℚ)
    (htok : w.tokenExists = false) (hcf : w.credentialsFileExists = true)
    (hfl : ∀ i, w.flowResult i = .timeout) (hR : 1 ≤ R) :
    (authenticate_calendar w R δ).1
      = .result none (some "Authentication timed out after multiple attempts.") ∧
    (authenticate_calendar w R δ).2.countP AuthEvent.isAttemptLog = R ∧
    (authenticate_calendar w R δ).2.countP (AuthEvent.isRetrySleep δ) = R - 1 :=
  authLoop_timeout_count w R δ htok hcf hfl R 0 hR (by omega)

/-- Witness for C4: in timeoutWorld with the default configuration
(3 retries, 1 second delay), exactly 3 attempts are logged, 2 retry
sleeps happen, and the terminal timeout message is returned. -/
theorem auth_timeout_exhausts_retries_witness :
    (authenticate_calendar timeoutWorld 3 1).1
      = .result none (some "Authentication timed out after multiple attempts.") ∧
    (authenticate_calendar timeoutWorld 3 1).2.countP AuthEvent.isAttemptLog = 3 ∧
    (authenticate_calendar timeoutWorld 3 1).2.countP (AuthEvent.isRetrySleep 1) = 2 :=
  auth_timeout_exhausts_retries timeoutWorld 3 1 rfl rfl (fun _ => rfl) (by decide)

/-- A nonempty string stays nonempty after appending. -/
theorem append_ne_empty_left (s t : String) (h : s.length ≠ 0) : s ++ t ≠ "" := by
  intro he
  have hl := congrArg String.length he
  rw [String.length_append] at hl
  simp only [String.length_empty] at hl
  omega

/-- Shape of the return of the interactive-flow branch: a valid
credential with no error, or no credential with the missing
credentials.json error. -/
theorem authNewFlow_shape (w : AuthWorld) (i : Nat) (pre : List AuthEvent)
    (hgf : ∀ c, w.flowResult i = .ok c → c.valid = true) :
    ∀ cr er, (authNewFlow w i pre).1 = .done cr er →
      (∃ c, cr = some c ∧ er = none ∧ c.valid = true) ∨
      (cr = none ∧ er = some "Error: credentials.json file not found.") := by
  intro cr er h
  unfold authNewFlow at h
  cases hcf : w.credentialsFileExists
  · rw [hcf] at h
    simp only [Bool.false_eq_true, if_false] at h
    simp only [AttemptResult.done.injEq] at h
    exact .inr ⟨h.1.symm, h.2.symm⟩
  · rw [hcf] at h
    simp only [if_true] at h
    cases hfl : w.flowResult i <;> rw [hfl] at h <;> simp at h
    exact .inl ⟨_, h.1.symm, h.2.symm, hgf _ hfl⟩

/-- Shape of a `return creds, err` from one attempt: a valid credential
with no error, or no credential with the missing credentials.json
error (assuming a successful refresh or flow yields a valid
credential, as the google-auth library guarantees). -/
theorem authAttempt_shape (w : AuthWorld) (i : Nat)
    (hgr : ∀ c, w.refreshResult i = .ok c → c.valid = true)
    (hgf : ∀ c, w.flowResult i = .ok c → c.valid = true) :
    ∀ cr er, (authAttempt w i).1 = .done cr er →
      (∃ c, cr = some c ∧ er = none ∧ c.valid = true) ∨
      (cr = none ∧ er = some "Error: credentials.json file not found.") := by
  intro cr er h
  unfold authAttempt at h
  cases htok : w.tokenExists
  · rw [htok] at h
    simp only [Bool.false_eq_true, if_false] at h
    exact authNewFlow_shape w i _ hgf cr er h
  · rw [htok] at h
    simp only [if_true] at h
    cases hld : w.loadResult i <;> rw [hld] at h
    case timeout => simp at h
    case exn m => simp at h
    case ok cl =>
      simp only at h
      cases hv : cl.valid <;> rw [hv] at h
      case true =>
        simp only [if_true] at h
        simp only [AttemptResult.done.injEq] at h
        exact .inl ⟨cl, h.1.symm, h.2.symm, hv⟩
      case false =>
        simp only [Bool.false_eq_true, if_false] at h
        cases he : cl.expired && cl.refresh_token <;> rw [he] at h
        case false =>
          simp only [Bool.false_eq_true, if_false] at h
          exact authNewFlow_shape w i _ hgf cr er h
        case true =>
          simp only [if_true] at h
          cases hrf : w.refreshResult i <;> rw [hrf] at h <;> simp at h
          exact .inl ⟨_, h.1.symm, h.2.symm, hgr _ hrf⟩

/-- Shape of the whole retry loop result when at least one iteration
runs: some valid credential with no error, or no credential with a
nonempty error message. -/
theorem authLoop_shape (w : AuthWorld) (R : Nat) (δ : ℚ)
    (hgr : ∀ i c, w.refreshResult i = .ok c → c.valid = true)
    (hgf : ∀ i c, w.flowResult i = .ok c → c.valid = true) :
    ∀ fuel i, 1 ≤ fuel → fuel + i = R →
      (∃ c, (authLoop w R δ fuel i).1 = .result (some c) none ∧ c.valid = true) ∨
      (∃ m, (authLoop w R δ fuel i).1 = .result none (some m) ∧ m ≠ "") := by
  intro fuel
  induction fuel with
  | zero => intro i h1 _; omega
  | succ f ih =>
    intro i _ hinv
    rw [authLoop_succ_eq]
    rcases hatt : authAttempt w i with ⟨res, tr⟩
    have hfst : (authAttempt w i).1 = res := by rw [hatt]
    cases res with
    | done cr er =>
      rcases authAttempt_shape w i (hgr i) (hgf i) cr er hfst with
        ⟨c, rfl, rfl, hv⟩ | ⟨rfl, rfl⟩
      · exact .inl ⟨c, by simp [hatt], hv⟩
      · exact .inr ⟨"Error: credentials.json file not found.", by simp [hatt], by decide⟩
    | timeoutRaised =>
      by_cases hi : i < R - 1
      · have := ih (i + 1) (by omega) (by omega)
        simpa [hatt, hi] using this
      · exact .inr ⟨"Authentication timed out after multiple attempts.",
          by simp [hatt, hi], by decide⟩
    | exnRaised m =>
      by_cases hi : i < R - 1
      · have := ih (i + 1) (by omega) (by omega)
        simpa [hatt, hi] using this
      · exact .inr ⟨"Authentication failed: " ++ m, by simp [hatt, hi],
          append_ne_empty_left _ _ (by decide)⟩

/-- Claim C5 as amended: for every world whose successful refresh and
flow calls yield valid credentials, and every configuration with a
positive retry count, authenticate_calendar returns either a valid
credential paired with no error, or no credential paired with a
nonempty error string; no exception escapes and no other result shape
occurs. -/
theorem auth_returns_pair_shape (w : AuthWorld) (R : Nat) (δ : ℚ) (hR : 1 ≤ R)
    (hgr : ∀ i c, w.refreshResult i = .ok c → c.valid = true)
    (hgf : ∀ i c, w.flowResult i = .ok c → c.valid = true) :
    (∃ c, (authenticate_calendar w R δ).1 = .result (some c) none ∧ c.valid = true) ∨
    (∃ m, (authenticate_calendar w R δ).1 = .result none (some m) ∧ m ≠ "") :=
  authLoop_shape w R δ hgr hgf R 0 hR (by omega)

/-- Counterexample to claim C5 as stated: with the retry count
configured to 0 (a non-negative value the claim includes), the Python
for-loop body never runs and the function returns a bare None, which
is neither a credential-and-no-error pair nor a no-credential-and-
error-string pair. -/
theorem auth_zero_retries_shape_violation :
    (authenticate_calendar storedTokenWorld 0 1).1 = .noneReturn ∧
    ¬ ((∃ c, (authenticate_calendar storedTokenWorld 0 1).1
            = .result (some c) none) ∨
       (∃ m, (authenticate_calendar storedTokenWorld 0 1).1
            = .result none (some m))) := by
  refine ⟨rfl, ?_⟩
  rintro (⟨c, hc⟩ | ⟨m, hm⟩)
  · exact absurd hc (by simp [authenticate_calendar, authLoop])
  · exact absurd hm (by simp [authenticate_calendar, authLoop])

/-- Witness for C5 as amended, in freshFlowWorld with the default
configuration: the disjunction holds (here through the left disjunct,
the interactively obtained credential). -/
theorem auth_returns_pair_shape_witness :
    (∃ c, (authenticate_calendar freshFlowWorld 3 1).1
        = .result (some c) none ∧ c.valid = true) ∨
    (∃ m, (authenticate_calendar freshFlowWorld 3 1).1
        = .result none (some m) ∧ m ≠ "") :=
  auth_returns_pair_shape freshFlowWorld 3 1 (by decide)
    (fun i c h => by simp [freshFlowWorld] at h)
    (fun i c h => by
      simp only [freshFlowWorld, StepResult.ok.injEq] at h
      rw [← h]
      rfl)

/-! ### Claims about the two run methods -/

/-- The delete loop counts exactly the events whose delete call
succeeds. -/
theorem deleteEvents_count (w : CancelWorld) (evs : List RemoteEvent) :
    (deleteEvents w evs).1 = evs.countP (fun e => (w.deleteResult e.id).isOk) := by
  induction evs with
  | nil => rfl
  | cons e rest ih =>
    simp only [deleteEvents, List.countP_cons]
    cases hd : w.deleteResult e.id <;> simp [hd, ih, StepResult.isOk]

/-- The delete loop attempts a delete call for every event handed to
it, in order, regardless of failures along the way. -/
theorem deleteEvents_trace (w : CancelWorld) (evs : List RemoteEvent) :
    (deleteEvents w evs).2 = evs.map (fun e => CancelCall.delete e.id) := by
  induction evs with
  | nil => rfl
  | cons e rest ih =>
    simp only [deleteEvents, List.map_cons]
    cases hd : w.deleteResult e.id <;> simp [hd, ih]

/-- Claim C3: when authentication succeeds, the search returns a
nonempty list of matches and no time filter is given, run attempts to
delete every match (failures are skipped, not propagated) and returns
the message determined by the number of successfully removed events. -/
theorem cancel_skips_failures_reports_count (w : CancelWorld)
    (tool : CancelCalendarEvent) (c : Credential) (evs : List RemoteEvent)
    (hauth : (authenticate_calendar w.auth w.maxRetries w.retryDelay).1
        = .result (some c) none)
    (hsearch : w.searchResult = .ok evs) (htime : tool.time = none) (hne : evs ≠ []) :
    (∀ e ∈ evs, CancelCall.delete e.id ∈ (runCancel w tool).2) ∧
    (runCancel w tool).1
      = cancelCountMessage tool.title tool.date
          (evs.countP (fun e => (w.deleteResult e.id).isOk)) := by
  have hie : evs.isEmpty = false := by
    cases evs with
    | nil => exact absurd rfl hne
    | cons a l => rfl
  rcases ha : authenticate_calendar w.auth w.maxRetries w.retryDelay with ⟨ar, atr⟩
  rw [ha] at hauth
  subst hauth
  have hrun : runCancel w tool
      = (cancelCountMessage tool.title tool.date (deleteEvents w evs).1,
         CancelCall.search tool.title tool.date :: (deleteEvents w evs).2) := by
    unfold runCancel
    rw [ha, hsearch]
    simp [truthyStr, hie, htime]
  rw [hrun]
  constructor
  · intro e he
    rw [deleteEvents_trace]
    exact List.mem_cons_of_mem _ (List.mem_map_of_mem _ he)
  · rw [deleteEvents_count]

/-- An event found by the search at 09:00 on 2024-03-05. -/
def ev1 : RemoteEvent := { id := "e1", start := strptimeDT ⟨2024, 3, 5⟩ ⟨9, 0⟩ }

/-- An event found by the search at 15:30 on 2024-03-05. -/
def ev2 : RemoteEvent := { id := "e2", start := strptimeDT ⟨2024, 3, 5⟩ ⟨15, 30⟩ }

/-- A cancel-run world: stored valid credential, the search finds ev1
and ev2, and every delete succeeds. -/
def cancelTwoWorld : CancelWorld :=
  { auth := storedTokenWorld, maxRetries := 3, retryDelay := 1
    searchResult := .ok [ev1, ev2]
    deleteResult := fun _ => .ok () }

/-- A cancel query for the title on 2024-03-05 with no time filter. -/
def cancelTool : CancelCalendarEvent :=
  { title := "Standup", date := ⟨2024, 3, 5⟩, time := none }

/-- Witness for C3: with two same-titled events on the date, no time
filter and both deletes succeeding, both events get delete calls and
the message reports the count 2. -/
theorem cancel_skips_failures_reports_count_witness :
    (∀ e ∈ [ev1, ev2], CancelCall.delete e.id ∈ (runCancel cancelTwoWorld cancelTool).2) ∧
    (runCancel cancelTwoWorld cancelTool).1
      = "Successfully cancelled 2 occurrences of \x27Standup\x27 on 2024-03-05" := by
  have h := cancel_skips_failures_reports_count cancelTwoWorld cancelTool validCred
    [ev1, ev2] rfl rfl rfl (by simp)
  refine ⟨h.1, ?_⟩
  rw [h.2]
  rfl

/-- Lists all of whose elements fail the predicate filter to nil. -/
theorem filter_eq_nil_of_none {α : Type} (p : α → Bool) :
    ∀ l : List α, (∀ a ∈ l, p a = false) → l.filter p = []
  | [], _ => rfl
  | a :: l, h => by
    have ha := h a (List.mem_cons_self a l)
    simp [List.filter_cons, ha,
      filter_eq_nil_of_none p l (fun b hb => h b (List.mem_cons_of_mem a hb))]

/-- Claim C8: when authentication succeeds, the search returns a
nonempty list, a time filter is given and no found event starts at
that hour and minute, run deletes nothing and reports that no events
match the title at that time on that date. -/
theorem cancel_time_filter_no_match (w : CancelWorld) (tool : CancelCalendarEvent)
    (c : Credential) (evs : List RemoteEvent) (t : Time)
    (hauth : (authenticate_calendar w.auth w.maxRetries w.retryDelay).1
        = .result (some c) none)
    (hsearch : w.searchResult = .ok evs) (htime : tool.time = some t) (hne : evs ≠ [])
    (hnone : ∀ e ∈ evs, timeMatches (strptimeDT tool.date t) e = false) :
    (runCancel w tool).1
      = "No events found matching \x27" ++ tool.title ++ "\x27 at " ++ formatTime t ++
        " on " ++ formatDate tool.date ∧
    ∀ s, CancelCall.delete s ∉ (runCancel w tool).2 := by
  have hie : evs.isEmpty = false := by
    cases evs with
    | nil => exact absurd rfl hne
    | cons a l => rfl
  have hfe : evs.filter (timeMatches (strptimeDT tool.date t)) = [] :=
    filter_eq_nil_of_none _ evs hnone
  rcases ha : authenticate_calendar w.auth w.maxRetries w.retryDelay with ⟨ar, atr⟩
  rw [ha] at hauth
  subst hauth
  have hrun : runCancel w tool
      = ("No events found matching \x27" ++ tool.title ++ "\x27 at " ++ formatTime t ++
           " on " ++ formatDate tool.date,
         [CancelCall.search tool.title tool.date]) := by
    unfold runCancel
    rw [ha, hsearch]
    simp [truthyStr, hie, htime, hfe]
  rw [hrun]
  exact ⟨rfl, by intro s hs; simp at hs⟩

/-- A cancel query for the title on 2024-03-05 at 10:00, an hour and
minute at which neither found event starts. -/
def cancelToolAtTen : CancelCalendarEvent :=
  { title := "Standup", date := ⟨2024, 3, 5⟩, time := some ⟨10, 0⟩ }

/-- Witness for C8: querying at 10:00 when the found events start at
09:00 and 15:30 deletes nothing and reports the no-match-at-time
message. -/
theorem cancel_time_filter_no_match_witness :
    (runCancel cancelTwoWorld cancelToolAtTen).1
      = "No events found matching \x27Standup\x27 at 10:00 on 2024-03-05" ∧
    ∀ s, CancelCall.delete s ∉ (runCancel cancelTwoWorld cancelToolAtTen).2 := by
  have h := cancel_time_filter_no_match cancelTwoWorld cancelToolAtTen validCred
    [ev1, ev2] ⟨10, 0⟩ rfl rfl rfl (by simp) (by decide)
  refine ⟨?_, h.2⟩
  rw [h.1]
  rfl

/-- Claim C9: every event record submitted by CreateCalendarEvent.run
disables default reminders, attaches exactly the email-30-minute and
popup-15-minute overrides, and requests attendee notifications
(sendUpdates set to all). -/
theorem run_submits_fixed_reminders (w : CreateWorld) (tool : CreateCalendarEvent)
    (ev : EventRecord) (hmem : RemoteCall.insert ev ∈ (runCreate w tool).2) :
    ev.remindersUseDefault = false ∧
    ev.reminderOverrides = [{ method := "email", minutes := 30 },
                            { method := "popup", minutes := 15 }] ∧
    ev.sendUpdates = "all" := by
  have hev : ev = buildEvent w.googleCalendarEmail tool := by
    unfold runCreate at hmem
    rcases ha : authenticate_calendar w.auth w.maxRetries w.retryDelay with ⟨ar, atr⟩
    rw [ha] at hmem
    cases ar with
    | noneReturn => simp at hmem
    | result creds err =>
      dsimp only at hmem
      cases he : truthyStr err
      · simp only [he, Bool.false_eq_true, if_false] at hmem
        cases creds with
        | none => simp at hmem
        | some c =>
          cases hins : w.insertResult <;> simp [hins] at hmem <;> exact hmem
      · rw [he] at hmem
        simp at hmem
  subst hev
  exact ⟨rfl, rfl, rfl⟩

/-- A create-run world: stored valid credential and a successful
insert call. -/
def createWorldOk : CreateWorld :=
  { auth := storedTokenWorld, maxRetries := 3, retryDelay := 1
    googleCalendarEmail := "me@example.com"
    insertResult := .ok { id := some "id1", htmlLink := some "https://cal/link" } }

/-- A concrete create request: 45 minutes at 14:30 on 2024-03-05. -/
def createToolOk : CreateCalendarEvent :=
  { title := "Test Meeting", date := ⟨2024, 3, 5⟩, time := ⟨14, 30⟩
    duration_minutes := 45, description := "demo" }

/-- Witness for C9: the record submitted in createWorldOk carries
useDefault false, exactly the email-30 and popup-15 overrides, and
sendUpdates all. -/
theorem run_submits_fixed_reminders_witness :
    (buildEvent "me@example.com" createToolOk).remindersUseDefault = false ∧
    (buildEvent "me@example.com" createToolOk).reminderOverrides
      = [{ method := "email", minutes := 30 }, { method := "popup", minutes := 15 }] ∧
    (buildEvent "me@example.com" createToolOk).sendUpdates = "all" :=
  run_submits_fixed_reminders createWorldOk createToolOk
    (buildEvent "me@example.com" createToolOk)
    (by
      rw [show (runCreate createWorldOk createToolOk).2
          = [RemoteCall.insert (buildEvent "me@example.com" createToolOk)] from rfl]
      exact List.mem_singleton.mpr rfl)

end CalendarTools
